import Mathlib

/-!
Shallow embedding of the myles-fitness-platform marketplace core: the
drizzle schema (src/shared/schema.ts), the storage layer
(`DatabaseStorage`, `TrainerStorage`) and the Express route handlers
(src/unnamed/part_005), plus the client-side booking fee computation
(src/client/src/components/BookingModal.tsx).  Timestamps
(createdAt/updatedAt) and presentation-only columns (social links,
latitude/longitude, profile images) are omitted: no claim touches them.
Postgres `decimal` money columns are modelled as `Rat`.
-/

namespace Myles

/-- Tests whether the first character list is a prefix of the second
(character-by-character equality). -/
def headMatches : List Char → List Char → Bool
  | [], _ => true
  | _ :: _, [] => false
  | a :: as, b :: bs => a == b && headMatches as bs

/-- Tests whether the first character list occurs contiguously inside the
second. -/
def occursIn : List Char → List Char → Bool
  | pat, [] => pat.isEmpty
  | pat, c :: rest => headMatches pat (c :: rest) || occursIn pat rest

/-- SQL `col ILIKE '%pat%'` as the storage layer uses it: case-insensitive
substring containment (the filter strings carry no further wildcard
characters). -/
def ilikeContains (col pat : String) : Bool :=
  occursIn pat.toLower.toList col.toLower.toList

/-- SQL `col LIKE '%pat%'` (case-sensitive; used by the trainer location
filter). -/
def likeContains (col pat : String) : Bool :=
  occursIn pat.toList col.toList

/-- Fresh value of a `serial` primary-key column: one more than the largest
id already present. -/
def freshId (ids : List Nat) : Nat := ids.foldr max 0 + 1

/-- Row of the `users` table (schema.ts 30-41). -/
structure User where
  id : String
  email : Option String := none
  firstName : Option String := none
  lastName : Option String := none
  role : String := "user"
  stripeCustomerId : Option String := none
deriving Repr, DecidableEq

/-- Row of the `businesses` table (schema.ts 44-85). -/
structure Business where
  id : Nat
  userId : Option String := none
  name : String
  description : Option String := none
  address : String
  postcode : String
  phone : Option String := none
  email : Option String := none
  businessType : Option String := none
  specialties : Option (List String) := none
  ageRanges : Option (List String) := none
  difficultyLevels : Option (List String) := none
  amenities : Option (List String) := none
  approved : Bool := false
  claimed : Bool := false
  manuallyAdded : Bool := false
  subscriptionTier : String := "free"
  bookingEnabled : Bool := false
  subscriptionExpiry : Option Nat := none
  stripeSubscriptionId : Option String := none
deriving Repr, DecidableEq

/-- Row of the `session_types` table (schema.ts 88-93). -/
structure SessionType where
  id : Nat
  name : String
  description : Option String := none
deriving Repr, DecidableEq

/-- Row of the `fitness_sessions` table (schema.ts 96-112); `schedule`
entries are (dayOfWeek, startTime, endTime). -/
structure FitnessSession where
  id : Nat
  businessId : Nat
  sessionTypeId : Nat
  title : String
  description : Option String := none
  difficulty : List String
  ageGroups : List String
  gender : String := "mixed"
  price : Rat
  duration : Nat
  maxParticipants : Nat
  schedule : List (Nat × String × String)
  approved : Bool := false
deriving Repr, DecidableEq

/-- Row of the `bookings` table (schema.ts 115-126). -/
structure Booking where
  id : Nat
  userId : String
  sessionId : Nat
  sessionDate : Nat
  status : String := "confirmed"
  paymentIntentId : Option String := none
  totalAmount : Rat
  specialRequirements : Option String := none
deriving Repr, DecidableEq

/-- Row of the `business_claims` table (schema.ts 129-140). -/
structure BusinessClaim where
  id : Nat
  businessId : Nat
  userId : String
  claimMessage : Option String := none
  verificationDocuments : List String := []
  status : String := "pending"
  adminNotes : Option String := none
  approvedAt : Option Nat := none
deriving Repr, DecidableEq

/-- Row of the `personal_trainers` table (schema.ts 143-169), keeping the
columns the trainer search and approval queue read. -/
structure PersonalTrainer where
  id : Nat
  userId : String
  firstName : String
  lastName : String
  bio : Option String := none
  specialties : List String
  hourlyRate : Option Rat := none
  location : Option String := none
  email : Option String := none
  subscriptionTier : String := "free"
  bookingEnabled : Bool := false
  approved : Bool := false
deriving Repr, DecidableEq

/-- The persistent store: one list per table. -/
structure DB where
  users : List User := []
  businesses : List Business := []
  sessionTypes : List SessionType := []
  fitnessSessions : List FitnessSession := []
  bookings : List Booking := []
  businessClaims : List BusinessClaim := []
  personalTrainers : List PersonalTrainer := []
deriving Repr, DecidableEq

def emptyDB : DB := {}

/-! ## DatabaseStorage (src/unnamed/part_005, lines 92-496) -/

/-- DatabaseStorage.getUser (part_005 93-96). -/
def getUser (db : DB) (id : String) : Option User :=
  db.users.find? (fun u => u.id == id)

/-- DatabaseStorage.upsertUser (part_005 98-111): insert, or on id conflict
overwrite the profile fields with the supplied ones. -/
def upsertUser (db : DB) (u : User) : DB :=
  if db.users.any (fun x => x.id == u.id) then
    { db with users := db.users.map (fun x => if x.id == u.id then u else x) }
  else
    { db with users := db.users ++ [u] }

/-- Argument of `insertBusinessSchema` (schema.ts 270-275): every
`businesses` column except id/createdAt/updatedAt; a column with a database
default is optional and `none` means the default applies on insert. -/
structure InsertBusiness where
  userId : Option String := none
  name : String
  description : Option String := none
  address : String
  postcode : String
  phone : Option String := none
  email : Option String := none
  businessType : Option String := none
  specialties : Option (List String) := none
  ageRanges : Option (List String) := none
  difficultyLevels : Option (List String) := none
  amenities : Option (List String) := none
  approved : Option Bool := none
  claimed : Option Bool := none
  manuallyAdded : Option Bool := none
  subscriptionTier : Option String := none
  bookingEnabled : Option Bool := none
  subscriptionExpiry : Option Nat := none
  stripeSubscriptionId : Option String := none
deriving Repr, DecidableEq

/-- DatabaseStorage.createBusiness (part_005 113-116): plain insert; the
database fills the serial id and the column defaults of schema.ts 73-79. -/
def createBusiness (db : DB) (b : InsertBusiness) : Business × DB :=
  let row : Business :=
    { id := freshId (db.businesses.map (·.id))
      userId := b.userId
      name := b.name
      description := b.description
      address := b.address
      postcode := b.postcode
      phone := b.phone
      email := b.email
      businessType := b.businessType
      specialties := b.specialties
      ageRanges := b.ageRanges
      difficultyLevels := b.difficultyLevels
      amenities := b.amenities
      approved := b.approved.getD false
      claimed := b.claimed.getD false
      manuallyAdded := b.manuallyAdded.getD false
      subscriptionTier := b.subscriptionTier.getD "free"
      bookingEnabled := b.bookingEnabled.getD false
      subscriptionExpiry := b.subscriptionExpiry
      stripeSubscriptionId := b.stripeSubscriptionId }
  (row, { db with businesses := db.businesses ++ [row] })

/-- DatabaseStorage.getBusinessesByUserId (part_005 118-129); the source
additionally left-joins the owning user row, which adds no business
column. -/
def getBusinessesByUserId (db : DB) (userId : String) : List Business :=
  db.businesses.filter (fun b => b.userId == some userId)

/-- DatabaseStorage.getBusinessById (part_005 131-144), business columns. -/
def getBusinessById (db : DB) (id : Nat) : Option Business :=
  db.businesses.find? (fun b => b.id == id)

/-- The `user` field getBusinessById's left join attaches: `null` (`none`)
when the business has no owning user. -/
def businessOwner (db : DB) (b : Business) : Option User :=
  b.userId.bind (getUser db)

/-- DatabaseStorage.updateBusinessApproval (part_005 146-153): sets exactly
the `approved` flag (and updatedAt) of the matching row. -/
def updateBusinessApproval (db : DB) (id : Nat) (approved : Bool) : DB :=
  let bs := db.businesses.map (fun b => if b.id == id then { b with approved := approved } else b)
  { db with businesses := bs }

def getSessionTypeById (db : DB) (id : Nat) : Option SessionType :=
  db.sessionTypes.find? (fun t => t.id == id)

/-- Argument of `insertFitnessSessionSchema` (schema.ts 281-287): the
session columns minus id/timestamps, with `price` checked nonnegative by
the zod extension (`z.number().min(0)`). -/
structure InsertFitnessSession where
  businessId : Nat
  sessionTypeId : Nat
  title : String
  description : Option String := none
  difficulty : List String
  ageGroups : List String
  gender : Option String := none
  price : Rat
  duration : Nat
  maxParticipants : Nat
  schedule : List (Nat × String × String)
  approved : Option Bool := none
deriving Repr, DecidableEq

/-- DatabaseStorage.createFitnessSession (part_005 189-192): plain insert;
the foreign keys of schema.ts 98-99 (businessId into businesses,
sessionTypeId into session_types) make a dangling insert raise, which the
routes surface as their catch-all 500, hence the Option result. -/
def createFitnessSession (db : DB) (s : InsertFitnessSession) :
    Option (FitnessSession × DB) :=
  if db.businesses.any (fun b => b.id == s.businessId)
      && db.sessionTypes.any (fun t => t.id == s.sessionTypeId) then
    let row : FitnessSession :=
      { id := freshId (db.fitnessSessions.map (·.id))
        businessId := s.businessId
        sessionTypeId := s.sessionTypeId
        title := s.title
        description := s.description
        difficulty := s.difficulty
        ageGroups := s.ageGroups
        gender := s.gender.getD "mixed"
        price := s.price
        duration := s.duration
        maxParticipants := s.maxParticipants
        schedule := s.schedule
        approved := s.approved.getD false }
    some (row, { db with fitnessSessions := db.fitnessSessions ++ [row] })
  else none

/-- DatabaseStorage.updateFitnessSessionApproval (part_005 234-241). -/
def updateFitnessSessionApproval (db : DB) (id : Nat) (approved : Bool) : DB :=
  let ss := db.fitnessSessions.map (fun s => if s.id == id then { s with approved := approved } else s)
  { db with fitnessSessions := ss }

/-- Filter object of DatabaseStorage.searchFitnessSessions (part_005
262-269); `none` is an absent (`undefined`) filter. -/
structure SessionSearchFilters where
  postcode : Option String := none
  sessionType : Option String := none
  ageGroup : Option String := none
  difficulty : Option String := none
  maxPrice : Option Rat := none
  minPrice : Option Rat := none
deriving Repr, DecidableEq

/-- Condition pushed for `filters.postcode` (part_005 272-274): JS truthiness
skips an empty string; `ilike` over the left-joined business's postcode
(SQL null when the join found no business, which drops the row). -/
def postcodeCond (db : DB) (f : SessionSearchFilters) (s : FitnessSession) : Bool :=
  match f.postcode with
  | none => true
  | some p =>
    if p.isEmpty then true
    else match getBusinessById db s.businessId with
      | some b => ilikeContains b.postcode p
      | none => false

/-- Condition pushed for `filters.sessionType` (part_005 275-277): `ilike`
over the joined session type's name. -/
def sessionTypeCond (db : DB) (f : SessionSearchFilters) (s : FitnessSession) : Bool :=
  match f.sessionType with
  | none => true
  | some t =>
    if t.isEmpty then true
    else match getSessionTypeById db s.sessionTypeId with
      | some st => ilikeContains st.name t
      | none => false

/-- Condition pushed for `filters.ageGroup` (part_005 278-281): jsonb `?`,
element membership in the stored ageGroups array. -/
def ageGroupCond (f : SessionSearchFilters) (s : FitnessSession) : Bool :=
  match f.ageGroup with
  | none => true
  | some g => if g.isEmpty then true else s.ageGroups.contains g

/-- Condition pushed for `filters.difficulty` (part_005 282-285): jsonb `?`,
element membership in the stored difficulty array. -/
def difficultyCond (f : SessionSearchFilters) (s : FitnessSession) : Bool :=
  match f.difficulty with
  | none => true
  | some d => if d.isEmpty then true else s.difficulty.contains d

/-- Condition pushed for `filters.maxPrice` (part_005 286-288): guarded by
`!== undefined`, inclusive `<=` on the numeric price. -/
def maxPriceCond (f : SessionSearchFilters) (s : FitnessSession) : Bool :=
  match f.maxPrice with
  | none => true
  | some m => decide (s.price ≤ m)

/-- Condition pushed for `filters.minPrice` (part_005 289-291): guarded by
`!== undefined`, inclusive `>=` on the numeric price. -/
def minPriceCond (f : SessionSearchFilters) (s : FitnessSession) : Bool :=
  match f.minPrice with
  | none => true
  | some m => decide (m ≤ s.price)

/-- The `and(...conditions)` of searchFitnessSessions (part_005 270-299):
the always-pushed `eq(fitnessSessions.approved, true)` and the
conditionally pushed filter conditions, conjoined. -/
def sessionConditions (db : DB) (f : SessionSearchFilters) (s : FitnessSession) : Bool :=
  s.approved
    && postcodeCond db f s
    && sessionTypeCond db f s
    && ageGroupCond f s
    && difficultyCond f s
    && maxPriceCond f s
    && minPriceCond f s

/-- DatabaseStorage.searchFitnessSessions (part_005 262-309), the session
rows of the joined result (the joins only hydrate business/sessionType,
looked up here on demand). -/
def searchFitnessSessions (db : DB) (f : SessionSearchFilters) : List FitnessSession :=
  db.fitnessSessions.filter (sessionConditions db f)

/-- Argument of `insertBookingSchema` (schema.ts 305-309): every `bookings`
column except id/createdAt/updatedAt; `status` defaults to `'confirmed'`
at the database (schema.ts 120). -/
structure InsertBooking where
  userId : String
  sessionId : Nat
  sessionDate : Nat
  status : Option String := none
  paymentIntentId : Option String := none
  totalAmount : Rat
  specialRequirements : Option String := none
deriving Repr, DecidableEq

/-- DatabaseStorage.createBooking (part_005 311-314): plain insert of the
supplied values; the foreign keys of schema.ts 117-118 (userId into users,
sessionId into fitness_sessions) make a dangling insert raise (`none`). -/
def createBooking (db : DB) (b : InsertBooking) : Option (Booking × DB) :=
  if db.users.any (fun u => u.id == b.userId)
      && db.fitnessSessions.any (fun s => s.id == b.sessionId) then
    let row : Booking :=
      { id := freshId (db.bookings.map (·.id))
        userId := b.userId
        sessionId := b.sessionId
        sessionDate := b.sessionDate
        status := b.status.getD "confirmed"
        paymentIntentId := b.paymentIntentId
        totalAmount := b.totalAmount
        specialRequirements := b.specialRequirements }
    some (row, { db with bookings := db.bookings ++ [row] })
  else none

def getBookingById (db : DB) (id : Nat) : Option Booking :=
  db.bookings.find? (fun b => b.id == id)

/-- DatabaseStorage.updateBookingStatus (part_005 390-397): sets the
matching booking's `status` to the supplied string (and updatedAt) --
nothing else; no transition is examined. -/
def updateBookingStatus (db : DB) (id : Nat) (status : String) : DB :=
  let bs := db.bookings.map (fun b => if b.id == id then { b with status := status } else b)
  { db with bookings := bs }

/-- Argument of `insertBusinessClaimSchema` (schema.ts 311-316): the claim
columns minus id/timestamps/approvedAt; `status` defaults to `'pending'`
at the database (schema.ts 135). -/
structure InsertBusinessClaim where
  businessId : Nat
  userId : String
  claimMessage : Option String := none
  verificationDocuments : List String := []
  status : Option String := none
  adminNotes : Option String := none
deriving Repr, DecidableEq

/-- DatabaseStorage.createBusinessClaim (part_005 413-419): plain insert;
foreign keys of schema.ts 131-132 as in createBooking.  `approvedAt`
starts null. -/
def createBusinessClaim (db : DB) (c : InsertBusinessClaim) :
    Option (BusinessClaim × DB) :=
  if db.businesses.any (fun b => b.id == c.businessId)
      && db.users.any (fun u => u.id == c.userId) then
    let row : BusinessClaim :=
      { id := freshId (db.businessClaims.map (·.id))
        businessId := c.businessId
        userId := c.userId
        claimMessage := c.claimMessage
        verificationDocuments := c.verificationDocuments
        status := c.status.getD "pending"
        adminNotes := c.adminNotes
        approvedAt := none }
    some (row, { db with businessClaims := db.businessClaims ++ [row] })
  else none

def getBusinessClaimById (db : DB) (id : Nat) : Option BusinessClaim :=
  db.businessClaims.find? (fun c => c.id == id)

/-- DatabaseStorage.updateBusinessClaimStatus (part_005 436-443): sets the
matching claim's `status` (and updatedAt) -- the business row and the
claim's `approvedAt` are not touched. -/
def updateBusinessClaimStatus (db : DB) (id : Nat) (status : String) : DB :=
  let cs := db.businessClaims.map (fun c => if c.id == id then { c with status := status } else c)
  { db with businessClaims := cs }

/-- Argument of DatabaseStorage.updateBusinessSubscription (part_005
446-451). -/
structure SubscriptionUpdate where
  subscriptionTier : String
  bookingEnabled : Bool
  subscriptionExpiry : Option Nat
  stripeSubscriptionId : Option String
deriving Repr, DecidableEq

/-- DatabaseStorage.updateBusinessSubscription (part_005 446-464): sets the
four subscription columns of the matching business. -/
def updateBusinessSubscription (db : DB) (id : Nat) (s : SubscriptionUpdate) : DB :=
  let bs := db.businesses.map (fun b =>
    if b.id == id then
      { b with
        subscriptionTier := s.subscriptionTier
        bookingEnabled := s.bookingEnabled
        subscriptionExpiry := s.subscriptionExpiry
        stripeSubscriptionId := s.stripeSubscriptionId }
    else b)
  { db with businesses := bs }

/-- DatabaseStorage.updateUserStripeCustomerId (part_005 466-473). -/
def updateUserStripeCustomerId (db : DB) (userId customerId : String) : DB :=
  let us := db.users.map (fun u => if u.id == userId then { u with stripeCustomerId := some customerId } else u)
  { db with users := us }

/-! ## TrainerStorage (src/unnamed/part_005, lines 512-686) -/

/-- Filter object of TrainerStorage.searchPersonalTrainers (part_005
549-555). -/
structure TrainerSearchFilters where
  search : Option String := none
  specialty : Option String := none
  location : Option String := none
  maxRate : Option Rat := none
  approved : Option Bool := none
deriving Repr, DecidableEq

/-- The conditions array of searchPersonalTrainers (part_005 561-591),
conjoined (an empty array means no WHERE clause, i.e. `true`):
the approved condition is pushed iff `filters.approved !== false`
(so `approved: false` SKIPS the filter rather than selecting unapproved
rows); search is ILIKE over firstName/lastName/bio; specialty is jsonb
`@>` containment; location is case-sensitive LIKE; maxRate is pushed only
when truthy (0 is skipped) and compares the nullable hourlyRate. -/
def trainerConditions (f : TrainerSearchFilters) (t : PersonalTrainer) : Bool :=
  (if f.approved != some false then t.approved else true)
    && (match f.search with
        | none => true
        | some s =>
          if s.isEmpty then true
          else
            ilikeContains t.firstName s || ilikeContains t.lastName s
              || (match t.bio with
                  | some b => ilikeContains b s
                  | none => false))
    && (match f.specialty with
        | none => true
        | some sp => if sp.isEmpty then true else t.specialties.contains sp)
    && (match f.location with
        | none => true
        | some loc =>
          if loc.isEmpty then true
          else match t.location with
            | some l => likeContains l loc
            | none => false)
    && (match f.maxRate with
        | none => true
        | some r =>
          if r == 0 then true
          else match t.hourlyRate with
            | some h => decide (h ≤ r)
            | none => false)

/-- TrainerStorage.searchPersonalTrainers (part_005 549-599), trainer rows
of the joined result. -/
def searchPersonalTrainers (db : DB) (f : TrainerSearchFilters) : List PersonalTrainer :=
  db.personalTrainers.filter (trainerConditions f)

/-- TrainerStorage.getPendingPersonalTrainers (part_005 610-612):
`searchPersonalTrainers({ approved: false })`. -/
def getPendingPersonalTrainers (db : DB) : List PersonalTrainer :=
  searchPersonalTrainers db { approved := some false }

/-! ## Route handlers (src/unnamed/part_005, lines 707-1349)

Each handler is a function of the store, the authenticated caller's id
(`req.user.claims.sub`; `isAuthenticated` has already passed) and the
request body, returning the HTTP response and the store the request leaves
behind.  Outbound emails are fire-and-forget and carry no state, so they
are not modelled. -/

/-- HTTP result of a route: a success status with the JSON body, or an
error status with the message sent. -/
inductive RouteOutcome (α : Type) where
  | ok (status : Nat) (body : α)
  | err (status : Nat) (message : String)
deriving Repr, DecidableEq

/-- Handler of `app.post('/api/businesses')` (part_005 724-758): 404 when
the caller has no user row; otherwise parses
`insertBusinessSchema.parse({...req.body, userId})` -- the authenticated
id overrides any supplied userId, but every other column of the insert
schema, the status flags included, is taken from the body -- and inserts.
Admin notification email not modelled. -/
def postApiBusinesses (db : DB) (authUserId : String) (body : InsertBusiness) :
    RouteOutcome Business × DB :=
  match getUser db authUserId with
  | none => (.err 404 "User not found", db)
  | some _ =>
    let r := createBusiness db { body with userId := some authUserId }
    (.ok 201 r.1, r.2)

/-- Handler of `app.post('/api/businesses/:id/claim')` (part_005 782-827):
404 when the business does not exist; 400 "Business is already claimed"
when `business.claimed || business.userId` is truthy; otherwise inserts a
claim with status 'pending' and the body's message/documents
(`verificationDocuments || []`).  `manuallyAdded` is never examined. -/
def postApiBusinessClaim (db : DB) (authUserId : String) (businessId : Nat)
    (claimMessage : Option String) (verificationDocuments : Option (List String)) :
    RouteOutcome BusinessClaim × DB :=
  match getBusinessById db businessId with
  | none => (.err 404 "Business not found", db)
  | some business =>
    if business.claimed || business.userId.isSome then
      (.err 400 "Business is already claimed", db)
    else
      match createBusinessClaim db
        { businessId := businessId
          userId := authUserId
          claimMessage := claimMessage
          verificationDocuments := verificationDocuments.getD []
          status := some "pending" } with
      | some (row, db') => (.ok 201 row, db')
      | none => (.err 500 "Failed to create business claim", db)

/-- The two Stripe plan price references the upgrade route reads from the
environment; `none` models unset-or-empty (`process.env.X || ''` followed
by `if (!priceId)`). -/
structure StripeEnv where
  basicPriceId : Option String := none
  premiumPriceId : Option String := none
deriving Repr, DecidableEq

/-- Outcome of `stripe.subscriptions.create` (part_005 887-892) as the
route consumes it. -/
structure StripeSubscription where
  id : String
  currentPeriodEnd : Nat
  clientSecret : Option String := none
deriving Repr, DecidableEq

/-- The get-or-create Stripe customer step of the upgrade route (part_005
869-884): when the caller's user row has no stripeCustomerId,
`stripe.customers.create` runs and the fresh id (`cust`) is persisted via
updateUserStripeCustomerId; otherwise nothing changes. -/
def ensureStripeCustomer (db : DB) (uid cust : String) : DB :=
  if ((getUser db uid).bind (·.stripeCustomerId)).isSome then db
  else updateUserStripeCustomerId db uid cust

/-- Handler of `app.post('/api/businesses/:id/upgrade')` (part_005
830-912).  `gateway` is what `stripe.subscriptions.create` returns (`none`
= the call throws, caught as 500); `newCustomerId` the id
`stripe.customers.create` would mint.  Order of effects follows the
source: ownership check (`business.user.id !== userId` -- when the
business has no owning user the `.id` access throws, caught as 500); free
tier downgrades synchronously; a paid tier resolves the plan price (400 on
an unknown tier, 500 when unconfigured), persists a fresh Stripe customer
id on the user if there is none, creates the gateway subscription, and on
success stores tier/bookingEnabled=true/expiry/subscription id.  The
customer persisted before a gateway failure stays persisted.  The
business's `approved` flag is never examined. -/
def postApiBusinessUpgrade (env : StripeEnv) (gateway : Option StripeSubscription)
    (newCustomerId : String) (db : DB) (authUserId : String) (businessId : Nat)
    (subscriptionTier : String) : RouteOutcome Unit × DB :=
  match getBusinessById db businessId with
  | none => (.err 403 "Not authorized to upgrade this business", db)
  | some business =>
    match businessOwner db business with
    | none => (.err 500 "Failed to upgrade subscription", db)
    | some owner =>
      if owner.id != authUserId then
        (.err 403 "Not authorized to upgrade this business", db)
      else if subscriptionTier == "free" then
        (.ok 200 (), updateBusinessSubscription db businessId
          { subscriptionTier := "free"
            bookingEnabled := false
            subscriptionExpiry := none
            stripeSubscriptionId := none })
      else
        match (if subscriptionTier == "basic" then some env.basicPriceId
               else if subscriptionTier == "premium" then some env.premiumPriceId
               else none) with
        | none => (.err 400 "Invalid subscription tier", db)
        | some none => (.err 500 "Subscription pricing not configured", db)
        | some (some _) =>
          match gateway with
          | none =>
            (.err 500 "Failed to upgrade subscription",
              ensureStripeCustomer db authUserId newCustomerId)
          | some sub =>
            (.ok 200 (), updateBusinessSubscription
              (ensureStripeCustomer db authUserId newCustomerId) businessId
              { subscriptionTier := subscriptionTier
                bookingEnabled := true
                subscriptionExpiry := some sub.currentPeriodEnd
                stripeSubscriptionId := some sub.id })

/-- Handler of `app.post('/api/sessions')` (part_005 926-956): despite the
message "No approved business found", the guard is only
`businesses.length === 0` over ALL businesses the caller owns, approved or
not; the body's `businessId` is never checked against the caller's
businesses.  The zod extension rejects a negative price (thrown, caught as
500); a dangling foreign key likewise. -/
def postApiSessions (db : DB) (authUserId : String) (body : InsertFitnessSession) :
    RouteOutcome FitnessSession × DB :=
  if (getBusinessesByUserId db authUserId).isEmpty then
    (.err 403 "No approved business found", db)
  else if body.price < 0 then
    (.err 500 "Failed to create session", db)
  else
    match createFitnessSession db body with
    | some (row, db') => (.ok 201 row, db')
    | none => (.err 500 "Failed to create session", db)

/-- Handler of `app.post('/api/bookings')` (part_005 999-1034): parses
`insertBookingSchema.parse({...req.body, userId})` (the authenticated id
overrides any supplied userId) and inserts via `storage.createBooking`.
No admission condition -- session approval, business approval,
bookingEnabled -- is consulted, and `totalAmount` is stored exactly as the
client supplied it; a thrown error (e.g. a foreign-key violation) is
caught as 500.  The confirmation email is not modelled. -/
def postApiBookings (db : DB) (authUserId : String) (body : InsertBooking) :
    RouteOutcome Booking × DB :=
  match createBooking db { body with userId := authUserId } with
  | some (row, db') => (.ok 201 row, db')
  | none => (.err 500 "Failed to create booking", db)

/-- Handler of `app.put('/api/admin/businesses/:id/approve')` (part_005
1101-1135): 403 unless the caller's user row has role 'admin'
(`user?.role !== 'admin'`); then `updateBusinessApproval`.  The outcome
email is not modelled. -/
def putApiAdminBusinessApprove (db : DB) (authUserId : String) (businessId : Nat)
    (approved : Bool) : RouteOutcome Unit × DB :=
  if ((getUser db authUserId).map (·.role)) != some "admin" then
    (.err 403 "Admin access required", db)
  else
    (.ok 200 (), updateBusinessApproval db businessId approved)

/-- Total a booking costs as the CLIENT computes it before posting
(client/src/components/BookingModal.tsx 148-149 and
client/src/pages/Checkout.tsx 69-70): the session price plus a 10%
platform fee.  The server never recomputes this. -/
def clientBookingTotal (price : Rat) : Rat :=
  price + price * (1 / 10)

/-! ## The business-lifecycle state machine

One step per operation the spec names for the Business lifecycle:
user sign-in (upsert), registration, admin approval toggle, subscription
upgrade/downgrade -- each step applies the corresponding route handler /
storage operation with arbitrary caller-chosen inputs. -/

/-- One system operation touching the Business lifecycle, exactly as the
route handlers execute it (registration bodies are arbitrary, as the
endpoint accepts them). -/
inductive MarketStep (env : StripeEnv) : DB → DB → Prop where
  | auth (db : DB) (u : User) : MarketStep env db (upsertUser db u)
  | register (db : DB) (uid : String) (body : InsertBusiness) :
      MarketStep env db (postApiBusinesses db uid body).2
  | approve (db : DB) (uid : String) (bid : Nat) (app : Bool) :
      MarketStep env db (putApiAdminBusinessApprove db uid bid app).2
  | upgrade (db : DB) (gw : Option StripeSubscription) (cust uid : String)
      (bid : Nat) (tier : String) :
      MarketStep env db (postApiBusinessUpgrade env gw cust db uid bid tier).2

/-- States reachable from the empty store by the Business-lifecycle
operations. -/
inductive MarketReachable (env : StripeEnv) : DB → Prop where
  | init : MarketReachable env emptyDB
  | step {db db' : DB} : MarketReachable env db → MarketStep env db db' →
      MarketReachable env db'

/-- A registration body that carries none of the status columns, i.e. the
shape the standard registration form posts (the database defaults then
apply). -/
def honestStatusBody (b : InsertBusiness) : Prop :=
  b.approved = none ∧ b.claimed = none ∧ b.manuallyAdded = none ∧
    b.subscriptionTier = none ∧ b.bookingEnabled = none

/-- MarketStep, with registration restricted to bodies without status
columns. -/
inductive HonestStep (env : StripeEnv) : DB → DB → Prop where
  | auth (db : DB) (u : User) : HonestStep env db (upsertUser db u)
  | register (db : DB) (uid : String) (body : InsertBusiness)
      (h : honestStatusBody body) :
      HonestStep env db (postApiBusinesses db uid body).2
  | approve (db : DB) (uid : String) (bid : Nat) (app : Bool) :
      HonestStep env db (putApiAdminBusinessApprove db uid bid app).2
  | upgrade (db : DB) (gw : Option StripeSubscription) (cust uid : String)
      (bid : Nat) (tier : String) :
      HonestStep env db (postApiBusinessUpgrade env gw cust db uid bid tier).2

/-- States reachable from the empty store when every registration body
leaves the status columns to their defaults. -/
inductive HonestReachable (env : StripeEnv) : DB → Prop where
  | init : HonestReachable env emptyDB
  | step {db db' : DB} : HonestReachable env db → HonestStep env db db' →
      HonestReachable env db'

/-- The subscription half of the spec's bookingEnabled invariant: every
booking-enabled business is on a paid tier. -/
def paidGate (db : DB) : Prop :=
  ∀ b ∈ db.businesses, b.bookingEnabled = true → b.subscriptionTier ≠ "free"

/-! ## Concrete scenario data used by the per-claim evaluations -/

def userU1 : User := { id := "u1", email := some "u1@example.com" }

def ownerO1 : User := { id := "owner1" }

def adminA1 : User := { id := "a1", role := "admin" }

def sessionTypeYoga : SessionType := { id := 1, name := "Yoga" }

/-- Business 1 for the C1 scenario: exists but is neither approved nor
booking-enabled (free tier). -/
def businessC1 : Business :=
  { id := 1, userId := some "owner1", name := "Unapproved Gym",
    address := "3 High St", postcode := "AB1 2CD" }

/-- Session 1 for the C1 scenario: exists but `approved = false`. -/
def sessionC1 : FitnessSession :=
  { id := 1, businessId := 1, sessionTypeId := 1, title := "Morning Yoga",
    difficulty := ["beginner"], ageGroups := ["18-25"], price := 20,
    duration := 60, maxParticipants := 10,
    schedule := [(1, "09:00", "10:00")] }

def dbC1 : DB :=
  { users := [userU1, ownerO1], businesses := [businessC1],
    sessionTypes := [sessionTypeYoga], fitnessSessions := [sessionC1] }

def bodyC1 : InsertBooking :=
  { userId := "u1", sessionId := 1, sessionDate := 100, totalAmount := 22 }

/-- Business for the C2 scenario: fully admissible (approved, paid tier,
booking enabled), so only the fee property is at stake. -/
def businessC2 : Business :=
  { id := 1, userId := some "owner1", name := "Approved Gym",
    address := "3 High St", postcode := "AB1 2CD", approved := true,
    subscriptionTier := "basic", bookingEnabled := true }

def sessionC2 : FitnessSession :=
  { id := 1, businessId := 1, sessionTypeId := 1, title := "Morning Yoga",
    difficulty := ["beginner"], ageGroups := ["18-25"], price := 20,
    duration := 60, maxParticipants := 10,
    schedule := [(1, "09:00", "10:00")], approved := true }

def dbC2 : DB :=
  { users := [userU1, ownerO1], businesses := [businessC2],
    sessionTypes := [sessionTypeYoga], fitnessSessions := [sessionC2] }

def envC3 : StripeEnv :=
  { basicPriceId := some "price_basic", premiumPriceId := some "price_premium" }

def gwC3 : StripeSubscription := { id := "sub_1", currentPeriodEnd := 1700000000 }

def bodyC3 : InsertBusiness :=
  { name := "FitLife", address := "1 High St", postcode := "AB1 2CD" }

/-- A registration body that self-serves `bookingEnabled: true` -- the
insert schema accepts it. -/
def bodyC3bad : InsertBusiness :=
  { name := "SneakyGym", address := "2 High St", postcode := "AB1 2CD",
    bookingEnabled := some true }

def s1C3 : DB := upsertUser emptyDB userU1

def s2C3 : DB := (postApiBusinesses s1C3 "u1" bodyC3).2

/-- The unapproved freshly registered business is upgraded to basic. -/
def s3C3 : DB := (postApiBusinessUpgrade envC3 (some gwC3) "cus_1" s2C3 "u1" 1 "basic").2

def s4C3 : DB := upsertUser s3C3 adminA1

def s5C3 : DB := (putApiAdminBusinessApprove s4C3 "a1" 1 true).2

/-- Approval is revoked after the upgrade. -/
def s6C3 : DB := (putApiAdminBusinessApprove s5C3 "a1" 1 false).2

/-- A second business registers with `bookingEnabled: true` in the body. -/
def s7C3 : DB := (postApiBusinesses s6C3 "u1" bodyC3bad).2

/-- Unclaimed business that was NOT manually added, for the C6 scenario. -/
def businessC6 : Business :=
  { id := 1, name := "Unclaimed Gym", address := "4 High St", postcode := "AB1 2CD" }

def dbC6 : DB := { users := [userU1], businesses := [businessC6] }

/-- Pending claim by u1 on (manually added, unclaimed) business 1. -/
def claimC7 : BusinessClaim :=
  { id := 1, businessId := 1, userId := "u1", claimMessage := some "mine" }

def businessC7 : Business :=
  { id := 1, name := "Seeded Gym", address := "5 High St", postcode := "AB1 2CD",
    manuallyAdded := true }

def dbC7 : DB :=
  { users := [userU1], businesses := [businessC7], businessClaims := [claimC7] }

/-- The only claim-decision operation the storage layer offers, applied
approving claim 1. -/
def dbC7after : DB := updateBusinessClaimStatus dbC7 1 "approved"

/-- The caller's only business, unapproved, for the C8 scenario. -/
def businessC8 : Business :=
  { id := 1, userId := some "owner1", name := "Pending Gym",
    address := "6 High St", postcode := "AB1 2CD" }

def dbC8 : DB :=
  { users := [ownerO1], businesses := [businessC8],
    sessionTypes := [sessionTypeYoga] }

def bodyC8 : InsertFitnessSession :=
  { businessId := 1, sessionTypeId := 1, title := "HIIT",
    difficulty := ["advanced"], ageGroups := ["26-35"], price := 15,
    duration := 45, maxParticipants := 12,
    schedule := [(2, "18:00", "18:45")] }

/-- A booking already in the terminal status 'cancelled'. -/
def bookingC9 : Booking :=
  { id := 1, userId := "u1", sessionId := 1, sessionDate := 100,
    status := "cancelled", totalAmount := 22 }

def dbC9 : DB := { users := [userU1], bookings := [bookingC9] }

def dbC9after : DB := updateBookingStatus dbC9 1 "confirmed"

/-- Registration body for C5 with the fields the standard form posts. -/
def bodyC5honest : InsertBusiness :=
  { name := "FitLife", address := "1 High St", postcode := "AB1 2CD",
    phone := some "01234 567890", businessType := some "gym",
    specialties := some ["yoga"], ageRanges := some ["18-25"],
    difficultyLevels := some ["beginner"], amenities := some [] }

/-- Registration body for C5 that self-serves approval and booking. -/
def bodyC5bad : InsertBusiness :=
  { name := "SelfApproved", address := "9 High St", postcode := "ZZ9 9ZZ",
    approved := some true, bookingEnabled := some true }

def dbC5 : DB := { users := [userU1] }

def bodyC2cheap : InsertBooking :=
  { userId := "u1", sessionId := 1, sessionDate := 100, totalAmount := 5 }

/-- The business row the C5 self-approving registration produces. -/
def bizBadRow : Business :=
  { id := 1, userId := some "u1", name := "SelfApproved", address := "9 High St",
    postcode := "ZZ9 9ZZ", approved := true, bookingEnabled := true }

/-- The business row the C5 form-shaped registration produces. -/
def bizHonestRow : Business :=
  { id := 1, userId := some "u1", name := "FitLife", address := "1 High St",
    postcode := "AB1 2CD", phone := some "01234 567890",
    businessType := some "gym", specialties := some ["yoga"],
    ageRanges := some ["18-25"], difficultyLevels := some ["beginner"],
    amenities := some [] }

/-- The claim row the C6 scenario creates. -/
def claimRowC6 : BusinessClaim :=
  { id := 1, businessId := 1, userId := "u1", claimMessage := some "This is my gym" }

/-! ## Claim theorems -/

/-- C1: the claim says booking creation enforces session existence,
session approval, business approval and bookingEnabled, rejecting
violations with AdmissionError.  Evaluating the handler at the failing
input: with session 1 unapproved and its business unapproved and not
booking-enabled, POST /api/bookings still answers 201 and inserts the
booking row -- no admission condition is consulted. -/
theorem C1_booking_admission_unchecked :
    (postApiBookings dbC1 "u1" bodyC1).1 =
        RouteOutcome.ok 201
          { id := 1, userId := "u1", sessionId := 1, sessionDate := 100,
            totalAmount := 22 }
      ∧ (postApiBookings dbC1 "u1" bodyC1).2.bookings =
          [{ id := 1, userId := "u1", sessionId := 1, sessionDate := 100,
             totalAmount := 22 }]
      ∧ sessionC1.approved = false ∧ businessC1.approved = false
      ∧ businessC1.bookingEnabled = false := by decide

/-- C2 counterexample: for session 1 priced 20.00 (client-side total
22.00), a booking request carrying totalAmount 5 is accepted and stored
with totalAmount 5, not 22 -- the claim's "regardless of what amount the
client supplies" is false. -/
theorem C2_totalAmount_client_controlled_cex :
    sessionC2.price = 20
      ∧ clientBookingTotal sessionC2.price = 22
      ∧ (postApiBookings dbC2 "u1" bodyC2cheap).1 =
          RouteOutcome.ok 201
            { id := 1, userId := "u1", sessionId := 1, sessionDate := 100,
              totalAmount := 5 }
      ∧ (5 : Rat) ≠ 22 := by
  refine ⟨rfl, ?_, by decide, by norm_num⟩
  show (20 : Rat) + 20 * (1 / 10) = 22
  norm_num

/-- C3 counterexample: a state reachable by registration, approval
toggles and subscription upgrade violates the claimed invariant three
ways: upgrading the still-unapproved business 1 to basic leaves it
booking-enabled with approved=false; revoking approval afterwards leaves
bookingEnabled=true standing; and a registration body carrying
`bookingEnabled: true` yields a booking-enabled business on the free
tier. -/
theorem C3_bookingEnabled_invariant_cex :
    MarketReachable envC3 s7C3
      ∧ ((getBusinessById s3C3 1).map fun b =>
          (b.bookingEnabled, b.approved, b.subscriptionTier)) =
        some (true, false, "basic")
      ∧ ((getBusinessById s6C3 1).map fun b => (b.bookingEnabled, b.approved)) =
        some (true, false)
      ∧ ((getBusinessById s7C3 2).map fun b =>
          (b.bookingEnabled, b.subscriptionTier, b.approved)) =
        some (true, "free", false) := by
  refine ⟨?_, by decide, by decide, by decide⟩
  exact MarketReachable.step
    (MarketReachable.step
      (MarketReachable.step
        (MarketReachable.step
          (MarketReachable.step
            (MarketReachable.step
              (MarketReachable.step MarketReachable.init
                (MarketStep.auth emptyDB userU1))
              (MarketStep.register s1C3 "u1" bodyC3))
            (MarketStep.upgrade s2C3 (some gwC3) "cus_1" "u1" 1 "basic"))
          (MarketStep.auth s3C3 adminA1))
        (MarketStep.approve s4C3 "a1" 1 true))
      (MarketStep.approve s5C3 "a1" 1 false))
    (MarketStep.register s6C3 "u1" bodyC3bad)

/-- C5 counterexample: registration stores caller-supplied status fields
(a body with `approved: true, bookingEnabled: true` yields exactly that
business), and even the form-shaped body yields `claimed = false`, not
the `claimed = true` the claim states. -/
theorem C5_registration_status_fields_cex :
    (postApiBusinesses dbC5 "u1" bodyC5bad).1 = RouteOutcome.ok 201 bizBadRow
      ∧ bizBadRow.approved = true ∧ bizBadRow.bookingEnabled = true
      ∧ (postApiBusinesses dbC5 "u1" bodyC5honest).1 = RouteOutcome.ok 201 bizHonestRow
      ∧ bizHonestRow.claimed = false := by decide

/-- C6 counterexample: business 1 is unclaimed and unowned but has
`manuallyAdded = false`; the claim says such a target must fail with
ConflictError, yet the handler answers 201 and inserts the (pending)
claim row. -/
theorem C6_claim_manuallyAdded_cex :
    businessC6.manuallyAdded = false ∧ businessC6.claimed = false
      ∧ businessC6.userId = none
      ∧ (postApiBusinessClaim dbC6 "u1" 1 (some "This is my gym") none).1 =
          RouteOutcome.ok 201 claimRowC6
      ∧ claimRowC6.status = "pending"
      ∧ (postApiBusinessClaim dbC6 "u1" 1 (some "This is my gym") none).2.businessClaims =
          [claimRowC6] := by decide

/-- C7: evaluating the only claim-decision operation the code has
(updateBusinessClaimStatus, status := 'approved') on a pending claim for
an unclaimed business: afterwards the claim is approved but approvedAt is
still null and the business is untouched (claimed=false, userId=null) --
exactly the state the claim says is unreachable. -/
theorem C7_claim_decision_left_dangling :
    ((getBusinessClaimById dbC7after 1).map fun c => (c.status, c.approvedAt)) =
        some ("approved", none)
      ∧ ((getBusinessById dbC7after 1).map fun b => (b.claimed, b.userId)) =
          some (false, none)
      ∧ dbC7after.businesses = dbC7.businesses := by decide

/-- C8: evaluating POST /api/sessions at the failing input: the caller
owns exactly one business and it is unapproved, yet the handler answers
201 and inserts the session row -- the guard (despite its "No approved
business found" message) only checks that the caller owns some
business. -/
theorem C8_session_creation_unapproved :
    ((getBusinessesByUserId dbC8 "owner1").map (·.approved)) = [false]
      ∧ (postApiSessions dbC8 "owner1" bodyC8).1 =
          RouteOutcome.ok 201
            { id := 1, businessId := 1, sessionTypeId := 1, title := "HIIT",
              difficulty := ["advanced"], ageGroups := ["26-35"], price := 15,
              duration := 45, maxParticipants := 12,
              schedule := [(2, "18:00", "18:45")] }
      ∧ (postApiSessions dbC8 "owner1" bodyC8).2.fitnessSessions.length = 1 := by
  decide

/-- C9 counterexample: updateBookingStatus moves booking 1 from the
terminal status 'cancelled' back to 'confirmed' -- the claim says any
transition out of cancelled fails with InvalidTransitionError and leaves
the status unchanged. -/
theorem C9_status_transition_cex :
    ((getBookingById dbC9 1).map (·.status)) = some "cancelled"
      ∧ ((getBookingById dbC9after 1).map (·.status)) = some "confirmed" := by
  decide

/-- C10: getPendingPersonalTrainers passes `approved: false` to
searchPersonalTrainers, whose guard `filters.approved !== false` then
SKIPS the approved-only condition instead of selecting unapproved rows;
with every other filter absent no condition remains, so the "pending"
queue is the whole personal_trainers table, approved trainers
included. -/
theorem C10_pending_trainers_all :
    ∀ db : DB, getPendingPersonalTrainers db = db.personalTrainers := by
  intro db
  unfold getPendingPersonalTrainers searchPersonalTrainers
  exact List.filter_eq_self.mpr (fun t _ => rfl)

/-- A successful insert stores the booking's totalAmount exactly as
supplied. -/
theorem createBooking_totalAmount {db : DB} {b : InsertBooking} {row : Booking}
    {db' : DB} (h : createBooking db b = some (row, db')) :
    row.totalAmount = b.totalAmount := by
  unfold createBooking at h
  split at h
  · simp only [Option.some.injEq, Prod.mk.injEq] at h
    obtain ⟨h1, -⟩ := h
    subst h1
    rfl
  · exact Option.noConfusion h

/-- C2 amended: the server stores whatever totalAmount the request body
carries (no recomputation, no check against the session price); the 10%
platform fee exists only in the client, whose computation yields 22.00
for a 20.00 session. -/
theorem C2_totalAmount_amended :
    (∀ (db : DB) (uid : String) (body : InsertBooking) (r : Booking) (db' : DB),
        postApiBookings db uid body = (RouteOutcome.ok 201 r, db') →
          r.totalAmount = body.totalAmount)
      ∧ clientBookingTotal 20 = 22 := by
  constructor
  · intro db uid body r db' h
    cases hc : createBooking db { body with userId := uid } with
    | none => simp [postApiBookings, hc] at h
    | some pr =>
      obtain ⟨row, db2⟩ := pr
      simp only [postApiBookings, hc, Prod.mk.injEq, RouteOutcome.ok.injEq,
        true_and] at h
      obtain ⟨hr, -⟩ := h
      rw [← hr]
      exact createBooking_totalAmount (b := { body with userId := uid }) hc
  · show (20 : Rat) + 20 * (1 / 10) = 22
    norm_num

/-- C9 amended: updateBookingStatus unconditionally overwrites the
matching booking's status with the supplied value -- for every stored
booking and every requested status, current status notwithstanding, the
rewritten row is present afterwards and no call is rejected (the
operation is total; no InvalidTransitionError exists in the code). -/
theorem C9_update_status_amended :
    ∀ (db : DB) (id : Nat) (st : String),
      (updateBookingStatus db id st).bookings.length = db.bookings.length
        ∧ ∀ b ∈ db.bookings, b.id = id →
            { b with status := st } ∈ (updateBookingStatus db id st).bookings := by
  intro db id st
  constructor
  · simp [updateBookingStatus]
  · intro b hb hid
    have hmem := List.mem_map_of_mem
      (fun b : Booking => if b.id == id then { b with status := st } else b) hb
    simpa [updateBookingStatus, hid] using hmem

/-- A successful claim insert yields the pending-or-supplied status and
appends exactly one row. -/
theorem createBusinessClaim_spec {db : DB} {c : InsertBusinessClaim}
    {row : BusinessClaim} {db' : DB}
    (h : createBusinessClaim db c = some (row, db')) :
    row.status = c.status.getD "pending"
      ∧ db'.businessClaims = db.businessClaims ++ [row] := by
  unfold createBusinessClaim at h
  split at h
  · simp only [Option.some.injEq, Prod.mk.injEq] at h
    obtain ⟨h1, h2⟩ := h
    subst h1
    subst h2
    exact ⟨rfl, rfl⟩
  · exact Option.noConfusion h

/-- C6 amended: the claim endpoint admits exactly the targets with
`claimed = false` and `userId = null` -- `manuallyAdded` is never
examined: a claimed-or-owned target fails with the 400 conflict answer
and no row, and every created claim has status 'pending' and is the one
row appended. -/
theorem C6_claim_amended :
    ∀ (db : DB) (uid : String) (bid : Nat) (msg : Option String)
      (docs : Option (List String)),
      (∀ b, getBusinessById db bid = some b →
          (b.claimed = true ∨ b.userId ≠ none) →
          postApiBusinessClaim db uid bid msg docs =
            (RouteOutcome.err 400 "Business is already claimed", db))
        ∧ (∀ b c db', getBusinessById db bid = some b →
            postApiBusinessClaim db uid bid msg docs = (RouteOutcome.ok 201 c, db') →
              b.claimed = false ∧ b.userId = none ∧ c.status = "pending"
                ∧ db'.businessClaims = db.businessClaims ++ [c]) := by
  intro db uid bid msg docs
  constructor
  · intro b hb hviol
    have hcond : (b.claimed || b.userId.isSome) = true := by
      rcases hviol with h | h
      · simp [h]
      · simp [Bool.or_eq_true, Option.isSome_iff_ne_none, h]
    simp [postApiBusinessClaim, hb, hcond]
  · intro b c db' hb h
    by_cases hcond : (b.claimed || b.userId.isSome) = true
    · simp [postApiBusinessClaim, hb, hcond] at h
    · have hflags : b.claimed = false ∧ b.userId = none := by
        simp only [Bool.or_eq_true, not_or, Bool.not_eq_true,
          Option.isSome_iff_ne_none, not_not] at hcond
        exact hcond
      cases hcc : createBusinessClaim db
          { businessId := bid, userId := uid, claimMessage := msg,
            verificationDocuments := docs.getD [], status := some "pending" } with
      | none => simp [postApiBusinessClaim, hb, hcond, hcc] at h
      | some pr =>
        obtain ⟨row, db2⟩ := pr
        simp only [postApiBusinessClaim, hb, hcond, hcc, Prod.mk.injEq,
          RouteOutcome.ok.injEq, true_and, Bool.false_eq_true, if_false] at h
        obtain ⟨hc, hdb⟩ := h
        subst hc
        subst hdb
        obtain ⟨hs, happ⟩ := createBusinessClaim_spec hcc
        exact ⟨hflags.1, hflags.2, hs, happ⟩

/-- C5 amended: a registration whose body carries no status columns (the
shape the standard form posts) creates a business with the database
defaults -- approved=false, claimed=false (not true), manuallyAdded=false,
subscriptionTier=free, bookingEnabled=false -- with userId bound to the
caller, and the immediate getBusinessesByUserId round trip returns it;
status fields a caller does supply are stored as given (see the
counterexample), so the defaults hold only for bodies without them. -/
theorem C5_registration_amended (db : DB) (uid : String) (body : InsertBusiness)
    (hhon : honestStatusBody body) (huser : (getUser db uid).isSome = true) :
    ∃ b db', postApiBusinesses db uid body = (RouteOutcome.ok 201 b, db')
      ∧ b.userId = some uid ∧ b.approved = false ∧ b.claimed = false
      ∧ b.manuallyAdded = false ∧ b.subscriptionTier = "free"
      ∧ b.bookingEnabled = false
      ∧ b ∈ getBusinessesByUserId db' uid := by
  obtain ⟨u, hu⟩ := Option.isSome_iff_exists.mp huser
  obtain ⟨h1, h2, h3, h4, h5⟩ := hhon
  refine ⟨(createBusiness db { body with userId := some uid }).1,
    (createBusiness db { body with userId := some uid }).2,
    ?_, ?_, ?_, ?_, ?_, ?_, ?_, ?_⟩
  · simp only [postApiBusinesses, hu]
  · show (some uid : Option String) = some uid
    rfl
  · show body.approved.getD false = false
    rw [h1]; rfl
  · show body.claimed.getD false = false
    rw [h2]; rfl
  · show body.manuallyAdded.getD false = false
    rw [h3]; rfl
  · show body.subscriptionTier.getD "free" = "free"
    rw [h4]; rfl
  · show body.bookingEnabled.getD false = false
    rw [h5]; rfl
  · apply List.mem_filter.mpr
    refine ⟨?_, beq_iff_eq.mpr rfl⟩
    show (createBusiness db { body with userId := some uid }).1 ∈
      db.businesses ++ [(createBusiness db { body with userId := some uid }).1]
    simp

/-- Witness for the amended C5 statement: the form-shaped body registered
by u1 into the one-user store. -/
theorem C5_registration_amended_witness :
    ∃ b db', postApiBusinesses dbC5 "u1" bodyC5honest = (RouteOutcome.ok 201 b, db')
      ∧ b.userId = some "u1" ∧ b.approved = false ∧ b.claimed = false
      ∧ b.manuallyAdded = false ∧ b.subscriptionTier = "free"
      ∧ b.bookingEnabled = false
      ∧ b ∈ getBusinessesByUserId db' "u1" :=
  C5_registration_amended dbC5 "u1" bodyC5honest ⟨rfl, rfl, rfl, rfl, rfl⟩ rfl

theorem postcodeCond_iff (db : DB) (f : SessionSearchFilters) (s : FitnessSession) :
    postcodeCond db f s = true ↔
      ∀ p, f.postcode = some p → p.isEmpty = false →
        ∃ b, getBusinessById db s.businessId = some b
          ∧ ilikeContains b.postcode p = true := by
  unfold postcodeCond
  cases hf : f.postcode with
  | none => simp
  | some p =>
    cases hp : p.isEmpty with
    | true => simp [hp]
    | false =>
      cases hb : getBusinessById db s.businessId with
      | none => simp [hp, hb]
      | some b => simp [hp, hb]

theorem sessionTypeCond_iff (db : DB) (f : SessionSearchFilters) (s : FitnessSession) :
    sessionTypeCond db f s = true ↔
      ∀ t, f.sessionType = some t → t.isEmpty = false →
        ∃ st, getSessionTypeById db s.sessionTypeId = some st
          ∧ ilikeContains st.name t = true := by
  unfold sessionTypeCond
  cases hf : f.sessionType with
  | none => simp
  | some t =>
    cases hp : t.isEmpty with
    | true => simp [hp]
    | false =>
      cases hb : getSessionTypeById db s.sessionTypeId with
      | none => simp [hp, hb]
      | some st => simp [hp, hb]

theorem ageGroupCond_iff (f : SessionSearchFilters) (s : FitnessSession) :
    ageGroupCond f s = true ↔
      ∀ g, f.ageGroup = some g → g.isEmpty = false → g ∈ s.ageGroups := by
  unfold ageGroupCond
  cases hf : f.ageGroup with
  | none => simp
  | some g =>
    cases hp : g.isEmpty with
    | true => simp [hp]
    | false => simp [hp]

theorem difficultyCond_iff (f : SessionSearchFilters) (s : FitnessSession) :
    difficultyCond f s = true ↔
      ∀ d, f.difficulty = some d → d.isEmpty = false → d ∈ s.difficulty := by
  unfold difficultyCond
  cases hf : f.difficulty with
  | none => simp
  | some d =>
    cases hp : d.isEmpty with
    | true => simp [hp]
    | false => simp [hp]

theorem maxPriceCond_iff (f : SessionSearchFilters) (s : FitnessSession) :
    maxPriceCond f s = true ↔ ∀ m, f.maxPrice = some m → s.price ≤ m := by
  unfold maxPriceCond
  cases hf : f.maxPrice with
  | none => simp
  | some m => simp

theorem minPriceCond_iff (f : SessionSearchFilters) (s : FitnessSession) :
    minPriceCond f s = true ↔ ∀ m, f.minPrice = some m → m ≤ s.price := by
  unfold minPriceCond
  cases hf : f.minPrice with
  | none => simp
  | some m => simp

/-- C4: a session is in the search result iff it is stored, approved, and
meets every supplied filter: postcode and sessionType by case-insensitive
substring match (against the joined business / session type), ageGroup
and difficulty by membership in the stored multi-value arrays, and the
price bounds inclusively.  In particular every returned session has
approved = true, and the predicates are AND-combined. -/
theorem C4_search_approved_and_filters :
    ∀ (db : DB) (f : SessionSearchFilters) (s : FitnessSession),
      s ∈ searchFitnessSessions db f ↔
        s ∈ db.fitnessSessions ∧ s.approved = true
          ∧ (∀ p, f.postcode = some p → p.isEmpty = false →
              ∃ b, getBusinessById db s.businessId = some b
                ∧ ilikeContains b.postcode p = true)
          ∧ (∀ t, f.sessionType = some t → t.isEmpty = false →
              ∃ st, getSessionTypeById db s.sessionTypeId = some st
                ∧ ilikeContains st.name t = true)
          ∧ (∀ g, f.ageGroup = some g → g.isEmpty = false → g ∈ s.ageGroups)
          ∧ (∀ d, f.difficulty = some d → d.isEmpty = false → d ∈ s.difficulty)
          ∧ (∀ m, f.maxPrice = some m → s.price ≤ m)
          ∧ (∀ m, f.minPrice = some m → m ≤ s.price) := by
  intro db f s
  simp only [searchFitnessSessions, List.mem_filter, sessionConditions,
    Bool.and_eq_true, postcodeCond_iff, sessionTypeCond_iff, ageGroupCond_iff,
    difficultyCond_iff, maxPriceCond_iff, minPriceCond_iff]
  tauto

theorem businesses_upsertUser (db : DB) (u : User) :
    (upsertUser db u).businesses = db.businesses := by
  unfold upsertUser
  split <;> rfl

theorem businesses_ensureStripeCustomer (db : DB) (uid cust : String) :
    (ensureStripeCustomer db uid cust).businesses = db.businesses := by
  unfold ensureStripeCustomer
  split <;> rfl

theorem paidGate_of_businesses_eq {db db' : DB}
    (h : db'.businesses = db.businesses) (hp : paidGate db) : paidGate db' := by
  intro b hb
  rw [h] at hb
  exact hp b hb

theorem paidGate_updateBusinessApproval {db : DB} (id : Nat) (app : Bool)
    (hp : paidGate db) : paidGate (updateBusinessApproval db id app) := by
  intro b' hb'
  have hb2 : b' ∈ db.businesses.map
      (fun b => if b.id == id then { b with approved := app } else b) := hb'
  rw [List.mem_map] at hb2
  obtain ⟨b, hb, heq⟩ := hb2
  subst heq
  by_cases hid : (b.id == id) = true
  · rw [if_pos hid]
    intro hbe
    exact hp b hb hbe
  · rw [if_neg hid]
    exact hp b hb

theorem paidGate_updateBusinessSubscription {db : DB} (id : Nat)
    (s : SubscriptionUpdate) (hp : paidGate db)
    (hs : s.bookingEnabled = true → s.subscriptionTier ≠ "free") :
    paidGate (updateBusinessSubscription db id s) := by
  intro b' hb'
  have hb2 : b' ∈ db.businesses.map (fun b =>
      if b.id == id then
        { b with
          subscriptionTier := s.subscriptionTier
          bookingEnabled := s.bookingEnabled
          subscriptionExpiry := s.subscriptionExpiry
          stripeSubscriptionId := s.stripeSubscriptionId }
      else b) := hb'
  rw [List.mem_map] at hb2
  obtain ⟨b, hb, heq⟩ := hb2
  subst heq
  by_cases hid : (b.id == id) = true
  · rw [if_pos hid]
    intro hbe
    exact hs hbe
  · rw [if_neg hid]
    exact hp b hb

theorem paidGate_postApiBusinesses_honest {db : DB} (uid : String)
    {body : InsertBusiness} (hhon : honestStatusBody body) (hp : paidGate db) :
    paidGate (postApiBusinesses db uid body).2 := by
  unfold postApiBusinesses
  cases hu : getUser db uid with
  | none => exact hp
  | some u =>
    intro b' hb'
    have hb2 : b' ∈ db.businesses
        ++ [(createBusiness db { body with userId := some uid }).1] := hb'
    rw [List.mem_append] at hb2
    rcases hb2 with h | h
    · exact hp b' h
    · rw [List.mem_singleton] at h
      subst h
      intro hbe
      have hfalse : (createBusiness db { body with userId := some uid }).1.bookingEnabled
          = false := by
        show body.bookingEnabled.getD false = false
        rw [hhon.2.2.2.2]
        rfl
      rw [hfalse] at hbe
      exact Bool.noConfusion hbe

theorem paidGate_putApiAdminBusinessApprove {db : DB} (uid : String) (bid : Nat)
    (app : Bool) (hp : paidGate db) :
    paidGate (putApiAdminBusinessApprove db uid bid app).2 := by
  unfold putApiAdminBusinessApprove
  split
  · exact hp
  · exact paidGate_updateBusinessApproval bid app hp

theorem paidGate_postApiBusinessUpgrade (env : StripeEnv)
    (gw : Option StripeSubscription) (cust uid : String) (bid : Nat)
    (tier : String) {db : DB} (hp : paidGate db) :
    paidGate (postApiBusinessUpgrade env gw cust db uid bid tier).2 := by
  unfold postApiBusinessUpgrade
  split
  · exact hp
  · split
    · exact hp
    · split
      · exact hp
      · split
        · exact paidGate_updateBusinessSubscription bid _ hp
            (fun hfalse => Bool.noConfusion hfalse)
        · split
          · exact hp
          · exact hp
          · rename_i val heq
            split
            · exact paidGate_of_businesses_eq
                (businesses_ensureStripeCustomer db uid cust) hp
            · apply paidGate_updateBusinessSubscription bid _
                (paidGate_of_businesses_eq
                  (businesses_ensureStripeCustomer db uid cust) hp)
              intro _
              by_cases hbasic : (tier == "basic") = true
              · rw [eq_of_beq hbasic]
                show ("basic" : String) ≠ "free"
                decide
              · rw [if_neg hbasic] at heq
                by_cases hprem : (tier == "premium") = true
                · rw [eq_of_beq hprem]
                  show ("premium" : String) ≠ "free"
                  decide
                · rw [if_neg hprem] at heq
                  exact Option.noConfusion heq

/-- C3 amended: over the states reachable by sign-in, registration with
form-shaped bodies (no status columns), admin approval toggles and
subscription upgrades/downgrades, every booking-enabled business is on a
paid tier (bookingEnabled = true implies subscriptionTier is not free).
The approved conjunct of the claimed invariant does NOT hold (see the
counterexample): upgrading never checks approval and revoking approval
never clears bookingEnabled; and bodies that do carry status columns can
break even the tier half at registration. -/
theorem C3_paid_gate_amended :
    ∀ (env : StripeEnv) (db : DB), HonestReachable env db → paidGate db := by
  intro env db h
  induction h with
  | init =>
    intro b hb
    exact absurd hb (List.not_mem_nil b)
  | step _ hs ih =>
    cases hs with
    | auth u => exact paidGate_of_businesses_eq (businesses_upsertUser _ u) ih
    | register uid body hhon => exact paidGate_postApiBusinesses_honest uid hhon ih
    | approve uid bid app => exact paidGate_putApiAdminBusinessApprove uid bid app ih
    | upgrade gw cust uid bid tier =>
      exact paidGate_postApiBusinessUpgrade env gw cust uid bid tier ih

/-- Witness for the amended C3 statement: the store reached by signing in
u1 and registering the form-shaped FitLife body satisfies the paid-tier
gate. -/
theorem C3_paid_gate_amended_witness : paidGate s2C3 :=
  C3_paid_gate_amended envC3 s2C3
    (HonestReachable.step
      (HonestReachable.step HonestReachable.init (HonestStep.auth emptyDB userU1))
      (HonestStep.register s1C3 "u1" bodyC3 ⟨rfl, rfl, rfl, rfl, rfl⟩))

end Myles
